import Mathlib

/-
Shallow embedding of
`sdk/python/feast/infra/offline_stores/contrib/db2_offline_store/db2_source.py`:
the DB2 offline-store data-source connector of the feast feature store.
The file defines three Python classes, `DB2Source`, `DB2Options` and
`SavedDatasetDB2Storage`, whose behaviour is configuration marshalling:
construction with Python truthiness-based normalization, JSON round-tripping
through a generic protobuf envelope, equality, and one metadata query.
Machine-level details that the code does not depend on (bytes vs decoded
JSON text) are embedded at the level the code manipulates them: the
`configuration` field of the envelope is modelled as the decoded JSON
object, a finite association list of string keys to string values, which
is exactly what `json.dumps` writes and `json.loads` reads back for the
flat string dictionaries this file serializes.
-/

set_option autoImplicit false

namespace FeastDB2

/-- Exceptions raised by the embedded code paths: the documented
configuration error `DataSourceNoNameException`, Python `AssertionError`
from a failed `assert`, and `TypeError` from the equality guard. -/
inductive PyError where
  | dataSourceNoNameException
  | assertionError
  | typeError
deriving DecidableEq

/-- Python `x or d` where `x` is an optional string and `d` a string:
`None` and the empty string are falsy, so both fall through to `d`. -/
def pyOrStr (x : Option String) (d : String) : String :=
  match x with
  | none => d
  | some s => if s = "" then d else s

/-- Python `x or y` on two optional strings, keeping the optionality of
the second operand. -/
def pyOrOpt (x y : Option String) : Option String :=
  match x with
  | none => y
  | some s => if s = "" then y else some s

/-- A JSON object whose values are strings, as decoded by `json.loads`:
an association list of key-value bindings in textual order. -/
def JsonObj : Type := List (String × String)

instance : DecidableEq JsonObj := by
  unfold JsonObj
  infer_instance

/-- Python dict indexing `config[k]` on the dict that `json.loads` builds
from a JSON object: a later binding for the same key overrides an earlier
one, and a missing key raises `KeyError`, modelled as `none`. -/
def dictGet (kvs : JsonObj) (k : String) : Option String :=
  kvs.foldl (fun acc p => if p.1 = k then some p.2 else acc) none

/-- The generic custom-options envelope
(`DataSourceProto.CustomSourceOptions`): its `configuration` bytes carry an
opaque JSON blob, modelled here in decoded form. -/
structure CustomSourceOptions where
  configuration : JsonObj
deriving DecidableEq

/-- The `DB2Options` record: the three strings stored by its `__init__`. -/
structure DB2Options where
  _name : String
  _query : String
  _table : String
deriving DecidableEq

/-- `DB2Options.__init__`: each optional argument is normalized with
`arg or ""`, so `None` (and the already-empty string) becomes `""`. -/
def DB2Options.init (name query table : Option String) : DB2Options :=
  { _name := pyOrStr name ""
    _query := pyOrStr query ""
    _table := pyOrStr table "" }

/-- `DB2Options.from_proto`: `json.loads` the configuration blob, then
index the resulting dict at `"name"`, `"query"` and `"table"` and pass the
values to `DB2Options.__init__`. A missing key raises `KeyError`, modelled
as `none`. -/
def DB2Options.from_proto (p : CustomSourceOptions) : Option DB2Options :=
  match dictGet p.configuration "name", dictGet p.configuration "query",
      dictGet p.configuration "table" with
  | some n, some q, some t => some (DB2Options.init (some n) (some q) (some t))
  | _, _, _ => none

/-- `DB2Options.to_proto`: `json.dumps` of the three-key dict built from
the stored fields, placed in the envelope configuration. -/
def DB2Options.to_proto (o : DB2Options) : CustomSourceOptions :=
  { configuration :=
      [("name", o._name), ("query", o._query), ("table", o._table)] }

/-- The `DB2Source` record. The base-class fields are the ones stored by
`DataSource.__init__` of the host framework. -/
structure DB2Source where
  _db2_options : DB2Options
  name : String
  timestamp_field : String
  created_timestamp_column : String
  field_mapping : List (String × String)
  description : String
  tags : List (String × String)
  owner : String
deriving DecidableEq

/-- `DB2Source.__init__`. It first builds the `DB2Options`, raises
`DataSourceNoNameException` when both `name` and `table` are literally
`None`, resolves `name = name or table`, and `assert name` fails when the
resolved name is `None` or empty. Modelled from the spec: the base-class
`DataSource.__init__` (feast/data_source.py, not under src/) stores the
remaining descriptor fields, normalizing each optional argument to an
empty string or empty mapping. -/
def DB2Source.init (name query table timestamp_field
    created_timestamp_column : Option String)
    (field_mapping : Option (List (String × String)))
    (description : Option String)
    (tags : Option (List (String × String)))
    (owner : Option String) : Except PyError DB2Source :=
  let opts := DB2Options.init name query table
  if name = none ∧ table = none then
    .error .dataSourceNoNameException
  else
    match pyOrOpt name table with
    | none => .error .assertionError
    | some n =>
      if n = "" then .error .assertionError
      else
        .ok
          { _db2_options := opts
            name := n
            timestamp_field := pyOrStr timestamp_field ""
            created_timestamp_column := pyOrStr created_timestamp_column ""
            field_mapping := field_mapping.getD []
            description := pyOrStr description ""
            tags := tags.getD []
            owner := pyOrStr owner "" }

/-- Modelled from the spec: the base-class `DataSource.__eq__`
(feast/data_source.py, not under src/) compares the stored base
descriptor fields of the two records. -/
def baseEq (a b : DB2Source) : Bool :=
  decide (a.name = b.name) &&
  decide (a.timestamp_field = b.timestamp_field) &&
  decide (a.created_timestamp_column = b.created_timestamp_column) &&
  decide (a.field_mapping = b.field_mapping) &&
  decide (a.description = b.description) &&
  decide (a.tags = b.tags) &&
  decide (a.owner = b.owner)

/-- The body of `DB2Source.__eq__` after the `isinstance` guard has
passed: the conjunction of the base-class equality with the stored query
text, both timestamp identifiers and the field mapping. -/
def DB2Source.eq (a b : DB2Source) : Bool :=
  baseEq a b &&
  decide (a._db2_options._query = b._db2_options._query) &&
  decide (a.timestamp_field = b.timestamp_field) &&
  decide (a.created_timestamp_column = b.created_timestamp_column) &&
  decide (a.field_mapping = b.field_mapping)

/-- An arbitrary Python operand of `==`: either a `DB2Source`, or any
other object, abstracted by an opaque description. -/
inductive PyObject where
  | db2Source (s : DB2Source)
  | other (descr : String)

/-- `DB2Source.__eq__` as called on an arbitrary operand: a non-`DB2Source`
operand fails the `isinstance` check and raises `TypeError`. -/
def DB2Source.eqPy (a : DB2Source) (b : PyObject) : Except PyError Bool :=
  match b with
  | .db2Source s => .ok (DB2Source.eq a s)
  | .other _ => .error .typeError

/-- `DB2Source.get_table_query_string`: the table reference when the
stored table string is truthy, otherwise the stored query wrapped in
parentheses. -/
def DB2Source.get_table_query_string (s : DB2Source) : String :=
  if s._db2_options._table ≠ "" then s._db2_options._table
  else "(" ++ s._db2_options._query ++ ")"

/-- A column of a database cursor description: its name and its
driver-level type code. -/
structure CursorColumn where
  name : String
  type_code : Int
deriving DecidableEq

/-- Modelled from the spec: the database cursor obtained through
`_get_conn` (feast/infra/utils/db2/connection_utils.py, not under src/).
It records the text of every query it executed, and after an `execute`
its `description` lists the result columns, given by a schema oracle from
query text to columns. -/
structure Cursor where
  executed : List String
  description : List CursorColumn

/-- `cur.execute(q)`: append the query text to the trace and refresh the
cursor description from the schema oracle. -/
def Cursor.execute (schema : String → List CursorColumn) (cur : Cursor)
    (q : String) : Cursor :=
  { executed := cur.executed ++ [q], description := schema q }

/-- `DB2Source.get_table_column_names_and_types`: execute the single
zero-row introspection query over the table query string and map the
cursor description through `pg_type_code_to_pg_type` (feast/type_map.py,
not under src/, abstracted as `typeMap`). Returns the cursor after
the call together with the produced (column name, type) pairs. -/
def DB2Source.get_table_column_names_and_types
    (schema : String → List CursorColumn) (typeMap : Int → String)
    (s : DB2Source) (cur : Cursor) : Cursor × List (String × String) :=
  let cur2 := Cursor.execute schema cur
    ("SELECT * FROM (" ++ s.get_table_query_string ++ ") AS sub LIMIT 0")
  (cur2, cur2.description.map (fun c => (c.name, typeMap c.type_code)))

/-- The saved-dataset storage envelope (`SavedDatasetStorageProto`) with
its `custom_storage` field. -/
structure SavedDatasetStorageProto where
  custom_storage : CustomSourceOptions
deriving DecidableEq

/-- The `SavedDatasetDB2Storage` record: it holds only its `db2_options`. -/
structure SavedDatasetDB2Storage where
  db2_options : DB2Options
deriving DecidableEq

/-- `SavedDatasetDB2Storage.__init__`: store `DB2Options` built from the
table reference alone. -/
def SavedDatasetDB2Storage.init (table_ref : String) : SavedDatasetDB2Storage :=
  { db2_options := DB2Options.init none none (some table_ref) }

/-- `SavedDatasetDB2Storage.from_proto`: decode the options from the
`custom_storage` field and rebuild the storage from their table field. -/
def SavedDatasetDB2Storage.from_proto (p : SavedDatasetStorageProto) :
    Option SavedDatasetDB2Storage :=
  (DB2Options.from_proto p.custom_storage).map
    (fun o => SavedDatasetDB2Storage.init o._table)

/-- `SavedDatasetDB2Storage.to_proto`: wrap the serialized options in the
storage envelope. -/
def SavedDatasetDB2Storage.to_proto (s : SavedDatasetDB2Storage) :
    SavedDatasetStorageProto :=
  { custom_storage := s.db2_options.to_proto }

/-- `SavedDatasetDB2Storage.to_data_source`: `DB2Source(table=...)` with
the Python default arguments of `DB2Source.__init__` for everything else. -/
def SavedDatasetDB2Storage.to_data_source (s : SavedDatasetDB2Storage) :
    Except PyError DB2Source :=
  DB2Source.init none none (some s.db2_options._table) (some "") (some "")
    none (some "") none (some "")

/-! ### Helper lemmas -/

theorem pyOrStr_some_empty (s : String) : pyOrStr (some s) "" = s := by
  unfold pyOrStr
  split <;> simp_all

theorem pyOrStr_eq_getD (x : Option String) : pyOrStr x "" = x.getD "" := by
  cases x with
  | none => rfl
  | some s => simpa using pyOrStr_some_empty s

theorem DB2Options.init_some (n q t : String) :
    DB2Options.init (some n) (some q) (some t) = ⟨n, q, t⟩ := by
  simp [DB2Options.init, pyOrStr_some_empty]

theorem dictGet_to_proto_name (o : DB2Options) :
    dictGet (DB2Options.to_proto o).configuration "name" = some o._name := by
  simp [DB2Options.to_proto, dictGet, List.foldl]

theorem dictGet_to_proto_query (o : DB2Options) :
    dictGet (DB2Options.to_proto o).configuration "query" = some o._query := by
  simp [DB2Options.to_proto, dictGet, List.foldl]

theorem dictGet_to_proto_table (o : DB2Options) :
    dictGet (DB2Options.to_proto o).configuration "table" = some o._table := by
  simp [DB2Options.to_proto, dictGet, List.foldl]

theorem DB2Options.from_proto_to_proto (o : DB2Options) :
    DB2Options.from_proto (DB2Options.to_proto o) = some o := by
  rw [DB2Options.from_proto, dictGet_to_proto_name, dictGet_to_proto_query,
    dictGet_to_proto_table]
  simp [DB2Options.init_some]

/-! ### Claim theorems -/

/-- Claim C1: for every DB2Options record x, deserializing the envelope
produced by serializing x, that is DB2Options.from_proto applied to
x.to_proto, yields x itself, so name, query and table are preserved; and
the JSON blob inside the custom-options field round-trips unchanged, since
re-serializing the deserialized record yields the identical envelope. -/
theorem c1_db2options_roundtrip (x : DB2Options) :
    DB2Options.from_proto (DB2Options.to_proto x) = some x ∧
    (DB2Options.from_proto (DB2Options.to_proto x)).map DB2Options.to_proto
      = some (DB2Options.to_proto x) := by
  refine ⟨DB2Options.from_proto_to_proto x, ?_⟩
  rw [DB2Options.from_proto_to_proto x]
  rfl

/-- Claim C4: the serialized form of a DB2Options record is a JSON object
whose keys are exactly "name", "query" and "table", carried in the
envelope configuration; and from_proto is fully characterized by the
lookups of exactly those three keys, reconstructing the record from their
values and failing (KeyError) when any of them is missing. -/
theorem c4_three_keys (o : DB2Options) (p : CustomSourceOptions) :
    (DB2Options.to_proto o).configuration.map Prod.fst
      = ["name", "query", "table"] ∧
    DB2Options.from_proto p =
      (match dictGet p.configuration "name", dictGet p.configuration "query",
          dictGet p.configuration "table" with
       | some n, some q, some t => some (⟨n, q, t⟩ : DB2Options)
       | _, _, _ => none) ∧
    ((DB2Options.from_proto p).isSome ↔
      (dictGet p.configuration "name").isSome ∧
      (dictGet p.configuration "query").isSome ∧
      (dictGet p.configuration "table").isSome) := by
  refine ⟨rfl, ?_, ?_⟩ <;>
    rcases hn : dictGet p.configuration "name" with _ | n <;>
    rcases hq : dictGet p.configuration "query" with _ | q <;>
    rcases ht : dictGet p.configuration "table" with _ | t <;>
    simp [DB2Options.from_proto, hn, hq, ht, DB2Options.init_some]

/-- Claim C9: DB2Options construction normalizes each absent or None
argument to the empty string, so the three stored fields are always
defined strings, never None; and from_proto preserves the invariant
because every record it returns is built by the same constructor from the
three looked-up strings. -/
theorem c9_normalization (n q t : Option String) (p : CustomSourceOptions)
    (o : DB2Options) :
    (DB2Options.init n q t)._name = n.getD "" ∧
    (DB2Options.init n q t)._query = q.getD "" ∧
    (DB2Options.init n q t)._table = t.getD "" ∧
    (DB2Options.from_proto p = some o →
      ∃ sn sq st, dictGet p.configuration "name" = some sn ∧
        dictGet p.configuration "query" = some sq ∧
        dictGet p.configuration "table" = some st ∧
        o = DB2Options.init (some sn) (some sq) (some st)) := by
  refine ⟨pyOrStr_eq_getD n, pyOrStr_eq_getD q, pyOrStr_eq_getD t, ?_⟩
  intro h
  rcases hn : dictGet p.configuration "name" with _ | sn <;>
    rcases hq : dictGet p.configuration "query" with _ | sq <;>
    rcases ht : dictGet p.configuration "table" with _ | st <;>
    rw [DB2Options.from_proto, hn, hq, ht] at h <;>
    simp_all

/-- Claim C9 witness: the normalization and the from_proto preservation at
a concrete envelope holding name "a", query "b", table "c". -/
theorem c9_witness :
    (DB2Options.init none none none)._name = (none : Option String).getD "" ∧
    (DB2Options.init none none none)._query = (none : Option String).getD "" ∧
    (DB2Options.init none none none)._table = (none : Option String).getD "" ∧
    ∃ sn sq st,
      dictGet [("name", "a"), ("query", "b"), ("table", "c")] "name" = some sn ∧
      dictGet [("name", "a"), ("query", "b"), ("table", "c")] "query" = some sq ∧
      dictGet [("name", "a"), ("query", "b"), ("table", "c")] "table" = some st ∧
      (⟨"a", "b", "c"⟩ : DB2Options)
        = DB2Options.init (some sn) (some sq) (some st) := by
  have h := c9_normalization none none none
    ⟨[("name", "a"), ("query", "b"), ("table", "c")]⟩ ⟨"a", "b", "c"⟩
  exact ⟨h.1, h.2.1, h.2.2.1, h.2.2.2 (by decide)⟩

/-- Claim C2: constructing a DB2Source with neither a name nor a table
raises DataSourceNoNameException; when the name is absent but a table
reference is given, the table reference becomes the name of the source and
construction succeeds. -/
theorem c2_name_from_table (query timestamp_field created_timestamp_column
    description owner : Option String)
    (field_mapping tags : Option (List (String × String)))
    (t : String) (ht : t ≠ "") :
    DB2Source.init none query none timestamp_field created_timestamp_column
        field_mapping description tags owner
      = .error .dataSourceNoNameException ∧
    ∃ src,
      DB2Source.init none query (some t) timestamp_field
          created_timestamp_column field_mapping description tags owner
        = .ok src ∧ src.name = t := by
  constructor
  · rfl
  · refine ⟨⟨DB2Options.init none query (some t), t,
      pyOrStr timestamp_field "", pyOrStr created_timestamp_column "",
      field_mapping.getD [], pyOrStr description "", tags.getD [],
      pyOrStr owner ""⟩, ?_, rfl⟩
    simp [DB2Source.init, pyOrOpt, ht]

/-- Claim C2 witness: construction with neither name nor table raises the
configuration error, and with only the table "driver_stats" it succeeds
with that name. -/
theorem c2_witness :
    DB2Source.init none none none (some "") (some "") none (some "") none
        (some "")
      = .error .dataSourceNoNameException ∧
    ∃ src,
      DB2Source.init none none (some "driver_stats") (some "") (some "")
          none (some "") none (some "")
        = .ok src ∧ src.name = "driver_stats" :=
  c2_name_from_table none (some "") (some "") (some "") (some "") none none
    "driver_stats" (by decide)

/-- Claim C10: constructing a DB2Source with an empty-string name and no
table does not raise DataSourceNoNameException, because the guard demands
both arguments literally None; instead the resolved name is falsy and the
subsequent assert fails, so construction fails with AssertionError. -/
theorem c10_empty_name_assertion (query timestamp_field
    created_timestamp_column description owner : Option String)
    (field_mapping tags : Option (List (String × String))) :
    DB2Source.init (some "") query none timestamp_field
        created_timestamp_column field_mapping description tags owner
      = .error .assertionError ∧
    DB2Source.init (some "") query none timestamp_field
        created_timestamp_column field_mapping description tags owner
      ≠ .error .dataSourceNoNameException := by
  constructor
  · rfl
  · intro h
    simp [DB2Source.init, pyOrOpt] at h

/-- Claim C10 witness: the assertion failure at a concrete construction
with the empty-string name, query "q" and no table. -/
theorem c10_witness :
    DB2Source.init (some "") (some "q") none (some "") (some "") none
        (some "") none (some "")
      = .error .assertionError ∧
    DB2Source.init (some "") (some "q") none (some "") (some "") none
        (some "") none (some "")
      ≠ .error .dataSourceNoNameException :=
  c10_empty_name_assertion (some "q") (some "") (some "") (some "") (some "")
    none none

/-- Claim C3 counterexample: two distinct DB2Source records that agree on
resolved query text and on both timestamp field identifiers, but differ in
field_mapping, compare unequal, refuting that equality depends only on the
query text and the timestamp identifiers. Both records are the stored form
of sources constructed with table "t" and timestamp_field "ts". -/
theorem c3_eq_counterexample :
    (⟨⟨"t", "", "t"⟩, "t", "ts", "", [], "", [], ""⟩ :
        DB2Source)._db2_options._query
      = (⟨⟨"t", "", "t"⟩, "t", "ts", "", [("x", "y")], "", [], ""⟩ :
          DB2Source)._db2_options._query ∧
    (⟨⟨"t", "", "t"⟩, "t", "ts", "", [], "", [], ""⟩ :
        DB2Source).timestamp_field
      = (⟨⟨"t", "", "t"⟩, "t", "ts", "", [("x", "y")], "", [], ""⟩ :
          DB2Source).timestamp_field ∧
    (⟨⟨"t", "", "t"⟩, "t", "ts", "", [], "", [], ""⟩ :
        DB2Source).created_timestamp_column
      = (⟨⟨"t", "", "t"⟩, "t", "ts", "", [("x", "y")], "", [], ""⟩ :
          DB2Source).created_timestamp_column ∧
    DB2Source.eq ⟨⟨"t", "", "t"⟩, "t", "ts", "", [], "", [], ""⟩
        ⟨⟨"t", "", "t"⟩, "t", "ts", "", [("x", "y")], "", [], ""⟩
      = false := by
  refine ⟨rfl, rfl, rfl, ?_⟩
  decide

/-- Claim C3 amended: a == b holds exactly when the records agree on their
name, resolved query text, timestamp_field, created_timestamp_column,
field_mapping, description, tags and owner, independent of object
identity; in particular two distinct objects with all those fields equal
compare equal. -/
theorem c3_eq_characterization (a b : DB2Source) :
    DB2Source.eq a b = true ↔
      (a.name = b.name ∧
       a._db2_options._query = b._db2_options._query ∧
       a.timestamp_field = b.timestamp_field ∧
       a.created_timestamp_column = b.created_timestamp_column ∧
       a.field_mapping = b.field_mapping ∧
       a.description = b.description ∧
       a.tags = b.tags ∧
       a.owner = b.owner) := by
  simp [DB2Source.eq, baseEq]
  tauto

/-- Claim C8: comparing a DB2Source with any operand that is not a
DB2Source raises TypeError instead of returning False or deferring to the
other operand. -/
theorem c8_eq_type_error (a : DB2Source) (d : String) :
    DB2Source.eqPy a (PyObject.other d) = .error .typeError ∧
    ∀ b, DB2Source.eqPy a (PyObject.other d) ≠ .ok b := by
  exact ⟨rfl, fun b h => by simp [DB2Source.eqPy] at h⟩

/-- Claim C8 witness: comparing a concrete DB2Source with a concrete
non-DB2Source operand raises TypeError and in particular is not any
boolean result. -/
theorem c8_witness :
    DB2Source.eqPy ⟨⟨"t", "", "t"⟩, "t", "", "", [], "", [], ""⟩
        (PyObject.other "a string operand")
      = .error .typeError ∧
    DB2Source.eqPy ⟨⟨"t", "", "t"⟩, "t", "", "", [], "", [], ""⟩
        (PyObject.other "a string operand")
      ≠ .ok true ∧
    DB2Source.eqPy ⟨⟨"t", "", "t"⟩, "t", "", "", [], "", [], ""⟩
        (PyObject.other "a string operand")
      ≠ .ok false :=
  ⟨(c8_eq_type_error ⟨⟨"t", "", "t"⟩, "t", "", "", [], "", [], ""⟩
      "a string operand").1,
    (c8_eq_type_error ⟨⟨"t", "", "t"⟩, "t", "", "", [], "", [], ""⟩
      "a string operand").2 true,
    (c8_eq_type_error ⟨⟨"t", "", "t"⟩, "t", "", "", [], "", [], ""⟩
      "a string operand").2 false⟩

/-- Claim C5: get_table_query_string returns the query text wrapped in
parentheses when the source is configured by a query, that is when the
stored table string is empty; it returns the bare table reference when a
table is configured; and when both a table and a query are set the table
form wins. -/
theorem c5_get_table_query_string (s : DB2Source) :
    (s._db2_options._table = "" →
      s.get_table_query_string = "(" ++ s._db2_options._query ++ ")") ∧
    (s._db2_options._table ≠ "" →
      s.get_table_query_string = s._db2_options._table) ∧
    (s._db2_options._table ≠ "" ∧ s._db2_options._query ≠ "" →
      s.get_table_query_string = s._db2_options._table) := by
  refine ⟨fun h => ?_, fun h => ?_, fun h => ?_⟩ <;>
    simp [DB2Source.get_table_query_string, h]

/-- Claim C5 witness: a query-configured source yields the parenthesized
sub-query, and a source with both table and query set yields the bare
table reference. -/
theorem c5_witness :
    (⟨⟨"n", "SELECT 1", ""⟩, "n", "", "", [], "", [], ""⟩ :
        DB2Source).get_table_query_string = "(SELECT 1)" ∧
    (⟨⟨"n", "SELECT 1", "tbl"⟩, "n", "", "", [], "", [], ""⟩ :
        DB2Source).get_table_query_string = "tbl" :=
  ⟨by
      have h := (c5_get_table_query_string
        ⟨⟨"n", "SELECT 1", ""⟩, "n", "", "", [], "", [], ""⟩).1 rfl
      simpa using h,
    (c5_get_table_query_string
      ⟨⟨"n", "SELECT 1", "tbl"⟩, "n", "", "", [], "", [], ""⟩).2.1 (by decide)⟩

/-- Claim C6: get_table_column_names_and_types issues exactly one query,
whose text selects all columns from the table query string wrapped as a
sub-query with LIMIT 0, and returns the pairs of column name and mapped
type taken from the cursor description left by that query. -/
theorem c6_metadata_query (schema : String → List CursorColumn)
    (typeMap : Int → String) (s : DB2Source) (cur : Cursor) :
    (DB2Source.get_table_column_names_and_types schema typeMap s cur).1.executed
      = cur.executed ++
        ["SELECT * FROM (" ++ s.get_table_query_string ++ ") AS sub LIMIT 0"] ∧
    (DB2Source.get_table_column_names_and_types schema typeMap s cur).2
      = (schema
          ("SELECT * FROM (" ++ s.get_table_query_string ++ ") AS sub LIMIT 0")).map
          (fun c => (c.name, typeMap c.type_code)) := by
  exact ⟨rfl, rfl⟩

/-- Claim C7: a SavedDatasetDB2Storage built from table reference t
round-trips through its protobuf form back to a storage whose table
reference is t, and to_data_source yields a DB2Source whose table is t. -/
theorem c7_saved_dataset_roundtrip (t : String) (ht : t ≠ "") :
    SavedDatasetDB2Storage.from_proto
        (SavedDatasetDB2Storage.to_proto (SavedDatasetDB2Storage.init t))
      = some (SavedDatasetDB2Storage.init t) ∧
    (SavedDatasetDB2Storage.init t).db2_options._table = t ∧
    ∃ src,
      (SavedDatasetDB2Storage.init t).to_data_source = .ok src ∧
      src._db2_options._table = t := by
  have htbl : (SavedDatasetDB2Storage.init t).db2_options._table = t := by
    simp [SavedDatasetDB2Storage.init, DB2Options.init, pyOrStr_some_empty]
  refine ⟨?_, htbl, ?_⟩
  · simp [SavedDatasetDB2Storage.from_proto, SavedDatasetDB2Storage.to_proto,
      DB2Options.from_proto_to_proto, htbl]
  · refine ⟨⟨DB2Options.init none none (some t), t, "", "", [], "", [], ""⟩,
      ?_, ?_⟩
    · simp [SavedDatasetDB2Storage.to_data_source, htbl, DB2Source.init,
        pyOrOpt, pyOrStr, ht]
    · simp [DB2Options.init, pyOrStr_some_empty]

/-- Claim C7 witness: the round-trip and the data-source conversion at the
concrete table reference "feature_table". -/
theorem c7_witness :
    SavedDatasetDB2Storage.from_proto
        (SavedDatasetDB2Storage.to_proto
          (SavedDatasetDB2Storage.init "feature_table"))
      = some (SavedDatasetDB2Storage.init "feature_table") ∧
    (SavedDatasetDB2Storage.init "feature_table").db2_options._table
      = "feature_table" ∧
    ∃ src,
      (SavedDatasetDB2Storage.init "feature_table").to_data_source = .ok src ∧
      src._db2_options._table = "feature_table" :=
  c7_saved_dataset_roundtrip "feature_table" (by decide)

end FeastDB2
